import Mathlib

/-
Shallow embedding of the offline-pki repository's certificate logic
(src/pki/certificate.py and src/pki/yubikey.py), together with proofs
settling the frozen claims about its specification.

Conventions of the embedding:
- Distinguished names are ordered lists of (OID, value) attributes; the
  RFC 4514 string form follows the cryptography library's rfc4514_string
  (relative distinguished names are rendered in reverse order, joined by
  commas).
- Exceptions raised by the Python code (click.BadParameter, RuntimeError,
  ValueError, cryptography's InvalidSignature) are modelled as values of
  PkiError through Except.
- Clock reads (datetime.now) are explicit inputs: each builder takes the
  two instants returned by its two now() calls, as seconds.
- External collaborators (the ipaddress parser, the RFC 4514 DN string
  parser, the YubiKey device and its PIV session) are abstract inputs:
  parsing functions are parameters, device behaviour is a small world
  record consumed by the per-command run functions.
-/

set_option maxHeartbeats 1000000

namespace OfflinePki

/- Error kinds of the spec's section 7; each maps a raise site in the source. -/
inductive PkiError where
  | invalidConstraint
  | invalidSubject
  | missingHashAlgorithm
  | unsupportedKeyAlgorithm
  | csrSignatureInvalid
  | unexpectedDeviceRole
  | noDeviceFound
  | ambiguousDevice
  | authError
  | abortedByUser
  | badParameter
  deriving DecidableEq, Repr

/- One (attribute-type OID, value) pair of a distinguished name. OIDs are
   numbered abstractly; oidStr gives the RFC 4514 short form. -/
structure NameAttribute where
  oid : Nat
  value : String
  deriving DecidableEq, Repr

abbrev DN := List NameAttribute

def oidStr : Nat → String
  | 0 => "CN"
  | 1 => "C"
  | 2 => "O"
  | 3 => "OU"
  | 4 => "L"
  | 5 => "ST"
  | n => "OID." ++ toString n

/- cryptography's Name.rfc4514_string: RDNs in reverse order, joined by ",". -/
def rfc4514String (dn : DN) : String :=
  String.intercalate "," ((dn.map (fun a => oidStr a.oid ++ "=" ++ a.value)).reverse)

/- ===== yubikey.py: validate_pin (lines 23-26) ===== -/

/- Python re.match(r"[0-9]{6,8}", value): an anchored-at-start match of 6 to 8
   ASCII digits exists (greedy with backtracking; existence is what matters). -/
def pinRegexMatch (s : String) : Bool :=
  [6, 7, 8].any (fun n => decide (n ≤ s.toList.length) && (s.toList.take n).all Char.isDigit)

def validate_pin (value : String) : Except PkiError String :=
  if pinRegexMatch value then .ok value else .error .badParameter

/- ===== yubikey.py: yubikey_one (lines 52-66) ===== -/

def yubikey_one (deviceCount : Nat) : Except PkiError Unit :=
  if deviceCount = 1 then .ok ()
  else if deviceCount = 0 then .error .noDeviceFound
  else .error .ambiguousDevice

/- ===== certificate.py: the role check on the stored certificate =====
   Inline in certificate_intermediate (lines 208-209), certificate_sign
   (lines 329-335) and root_sign (lines 441-442); the spec calls it
   RoleGuard. Only the issuer and subject of the stored certificate
   are consulted. -/

structure StoredCert where
  issuer : DN
  subject : DN
  deriving DecidableEq, Repr

def role_guard (expectRoot : Bool) (cert : StoredCert) : Except PkiError Unit :=
  if expectRoot then
    if rfc4514String cert.issuer ≠ rfc4514String cert.subject then
      .error .unexpectedDeviceRole
    else .ok ()
  else
    if rfc4514String cert.issuer = rfc4514String cert.subject then
      .error .unexpectedDeviceRole
    else .ok ()

/- ===== certificate.py: subject-name merge =====
   certificate_intermediate lines 212-217 and certificate_sign lines 343-348:
   missing = [attribute for attribute in issuer
              if attribute.oid not in [attr.oid for attr in subject]]
   subject = Name(missing + [attr for attr in subject]) -/

def mergeDN (issuer subject : DN) : DN :=
  let subjectOids := subject.map (fun attr => attr.oid)
  (issuer.filter (fun a => !(subjectOids.contains a.oid))) ++ subject

/- Spec-side restatement of section 4.2's words, for comparison with mergeDN:
   issuer attributes whose attribute-type OID occurs nowhere in the requested
   DN, in issuer order, followed by the requested attributes in their order. -/
def mergeSpecDN (issuer requested : DN) : DN :=
  issuer.filter (fun a => decide (∀ b ∈ requested, b.oid ≠ a.oid)) ++ requested

/- ===== certificate.py: CSR self-signature verification =====
   certificate_sign lines 303-322 and root_sign lines 416-435 (identical).
   The cryptographic verify call is abstracted by the sigValid field: the
   CryptoProvider is an external collaborator. -/

inductive KeyAlg where
  | rsa
  | ec
  | other
  deriving DecidableEq, Repr

inductive HashAlg where
  | sha256
  | sha384
  | sha512
  deriving DecidableEq, Repr

structure IPNet where
  addr : Nat
  prefixLen : Nat
  deriving DecidableEq, Repr

inductive GeneralName where
  | dnsName (v : String)
  | ipAddress (net : IPNet)
  | rfc822Name (v : String)
  | directoryName (dn : DN)
  deriving DecidableEq, Repr

inductive ExtVal where
  | basicConstraints (ca : Bool) (path_length : Option Nat)
  | keyUsage (digital_signature content_commitment key_encipherment data_encipherment
      key_agreement key_cert_sign crl_sign encipher_only decipher_only : Bool)
  | nameConstraints (permitted_subtrees excluded_subtrees : Option (List GeneralName))
  | copied (tag : Nat)
  deriving DecidableEq, Repr

structure Extension where
  value : ExtVal
  critical : Bool
  deriving DecidableEq, Repr

structure CsrRecord where
  keyAlg : KeyAlg
  hashAlg : Option HashAlg
  sigValid : Bool
  subject : DN
  extensions : List Extension
  deriving DecidableEq, Repr

def verify_csr (csr : CsrRecord) : Except PkiError Unit :=
  if csr.keyAlg = .rsa ∧ csr.hashAlg ≠ none then
    if csr.sigValid then .ok () else .error .csrSignatureInvalid
  else if csr.keyAlg = .ec then
    if csr.hashAlg = none then .error .missingHashAlgorithm
    else if csr.sigValid then .ok () else .error .csrSignatureInvalid
  else .error .unsupportedKeyAlgorithm

/- ===== certificate.py: validate_constraint (lines 20-45) =====
   The ipaddress.ip_network and Name.from_rfc4514_string parsers are external
   collaborators, passed in as functions returning none on ValueError. -/

/- Python str.lower on the extracted prefix (ASCII). -/
def pyLower (s : String) : String := String.mk (s.toList.map Char.toLower)

def validate_constraint (ipParse : String → Option IPNet) (dnParse : String → Option DN)
    (value : String) : Except PkiError GeneralName :=
  if value.toList.isEmpty || !(value.toList.contains ':') then .error .invalidConstraint
  else if String.mk ((value.toList.takeWhile (fun c => c != ':')).map Char.toLower) = "dns" then
    .ok (.dnsName (String.mk ((value.toList.dropWhile (fun c => c != ':')).drop 1)))
  else if String.mk ((value.toList.takeWhile (fun c => c != ':')).map Char.toLower) = "ip" then
    match ipParse (String.mk ((value.toList.dropWhile (fun c => c != ':')).drop 1)) with
    | some net => .ok (.ipAddress net)
    | none => .error .invalidConstraint
  else if String.mk ((value.toList.takeWhile (fun c => c != ':')).map Char.toLower) = "email" then
    .ok (.rfc822Name (String.mk ((value.toList.dropWhile (fun c => c != ':')).drop 1)))
  else if String.mk ((value.toList.takeWhile (fun c => c != ':')).map Char.toLower) = "dn" then
    match dnParse (String.mk ((value.toList.dropWhile (fun c => c != ':')).drop 1)) with
    | some d => .ok (.directoryName d)
    | none => .error .invalidConstraint
  else .error .invalidConstraint

/- validate_constraints (lines 48-57): empty input yields none, otherwise each
   string is parsed, short-circuiting on the first failure. -/
def validate_constraints (ipParse : String → Option IPNet) (dnParse : String → Option DN)
    (values : List String) : Except PkiError (Option (List GeneralName)) :=
  if values.isEmpty then .ok none
  else (values.mapM (validate_constraint ipParse dnParse)).map some

/- ===== general helper lemmas ===== -/

theorem takeWhile_middle {α : Type} (p : α → Bool) (l₁ l₂ : List α) (a : α)
    (h : ∀ x ∈ l₁, p x = true) (ha : p a = false) :
    (l₁ ++ a :: l₂).takeWhile p = l₁ := by
  induction l₁ with
  | nil => simp [List.takeWhile_cons, ha]
  | cons x xs ih =>
    have hx : p x = true := h x (List.mem_cons_self x xs)
    simp only [List.cons_append, List.takeWhile_cons, hx, if_true]
    rw [ih (fun y hy => h y (List.mem_cons_of_mem x hy))]

theorem dropWhile_middle {α : Type} (p : α → Bool) (l₁ l₂ : List α) (a : α)
    (h : ∀ x ∈ l₁, p x = true) (ha : p a = false) :
    (l₁ ++ a :: l₂).dropWhile p = a :: l₂ := by
  induction l₁ with
  | nil => simp [List.dropWhile_cons, ha]
  | cons x xs ih =>
    have hx : p x = true := h x (List.mem_cons_self x xs)
    simp only [List.cons_append, List.dropWhile_cons, hx, if_true]
    exact ih (fun y hy => h y (List.mem_cons_of_mem x hy))

theorem pinRegexMatch_iff (s : String) :
    pinRegexMatch s = true ↔
      6 ≤ s.toList.length ∧ (s.toList.take 6).all Char.isDigit = true := by
  unfold pinRegexMatch
  simp only [List.any_eq_true, List.mem_cons, List.not_mem_nil, or_false,
    Bool.and_eq_true, decide_eq_true_eq]
  constructor
  · rintro ⟨n, hn, hle, hall⟩
    have h6 : 6 ≤ n := by rcases hn with rfl | rfl | rfl <;> omega
    refine ⟨le_trans h6 hle, ?_⟩
    have hsub : s.toList.take 6 = (s.toList.take n).take 6 := by
      rw [List.take_take]
      congr 1
      omega
    rw [List.all_eq_true] at hall ⊢
    intro x hx
    rw [hsub] at hx
    exact hall x (List.mem_of_mem_take hx)
  · rintro ⟨hle, hall⟩
    exact ⟨6, Or.inl rfl, hle, hall⟩

/- ===== claim theorems ===== -/

/-- C2: the role check fails with UnexpectedDeviceRole exactly when, expecting a
root device, the stored certificate's issuer and subject RFC 4514 strings
differ, and, expecting an intermediate device, when they are equal; in every
other case it passes. -/
theorem c2_role_guard_iff (cert : StoredCert) :
    (role_guard true cert = .error .unexpectedDeviceRole ↔
      rfc4514String cert.issuer ≠ rfc4514String cert.subject) ∧
    (role_guard false cert = .error .unexpectedDeviceRole ↔
      rfc4514String cert.issuer = rfc4514String cert.subject) ∧
    (role_guard true cert = .ok () ↔
      rfc4514String cert.issuer = rfc4514String cert.subject) ∧
    (role_guard false cert = .ok () ↔
      rfc4514String cert.issuer ≠ rfc4514String cert.subject) := by
  unfold role_guard
  by_cases h : rfc4514String cert.issuer = rfc4514String cert.subject <;> simp [h]

/-- C5: the merged DN equals the issuer attributes whose attribute-type OID does
not occur in the requested DN, in issuer order, followed by the requested
attributes in their order, membership decided by OID equality alone. -/
theorem c5_merge_eq_spec (issuer requested : DN) :
    mergeDN issuer requested = mergeSpecDN issuer requested := by
  show (issuer.filter (fun a => !((requested.map (fun attr => attr.oid)).contains a.oid)))
      ++ requested
    = issuer.filter (fun a => decide (∀ b ∈ requested, b.oid ≠ a.oid)) ++ requested
  congr 1
  apply List.filter_congr
  intro a _
  by_cases hc : a.oid ∈ requested.map (fun attr => attr.oid)
  · have h1 : (requested.map (fun attr => attr.oid)).contains a.oid = true :=
      List.elem_iff.mpr hc
    rcases List.mem_map.mp hc with ⟨b, hb, he⟩
    rw [h1]
    simp only [Bool.not_true]
    symm
    rw [decide_eq_false_iff_not]
    intro hall
    exact hall b hb he
  · have h1 : (requested.map (fun attr => attr.oid)).contains a.oid = false := by
      rw [Bool.eq_false_iff]
      intro h
      exact hc (List.elem_iff.mp h)
    rw [h1]
    simp only [Bool.not_false]
    symm
    rw [decide_eq_true_eq]
    intro b hb he
    exact hc (List.mem_map.mpr ⟨b, hb, he⟩)

/-- C10: validate_pin accepts, returning the value unchanged, exactly the
strings whose first six characters are decimal digits — however long the string
is and whatever follows those six characters — and rejects every other string
with a parameter error. -/
theorem c10_validate_pin (s : String) :
    (validate_pin s = .ok s ↔
      6 ≤ s.toList.length ∧ (s.toList.take 6).all Char.isDigit = true) ∧
    (validate_pin s = .error .badParameter ↔
      ¬ (6 ≤ s.toList.length ∧ (s.toList.take 6).all Char.isDigit = true)) := by
  have key := pinRegexMatch_iff s
  unfold validate_pin
  by_cases h : pinRegexMatch s = true
  · rw [if_pos h]
    have hc := key.mp h
    exact ⟨⟨fun _ => hc, fun _ => rfl⟩,
      ⟨fun hx => Except.noConfusion hx, fun hn => absurd hc hn⟩⟩
  · rw [if_neg h]
    have hc : ¬ (6 ≤ s.toList.length ∧ (s.toList.take 6).all Char.isDigit = true) :=
      fun c => h (key.mpr c)
    exact ⟨⟨fun hx => Except.noConfusion hx, fun c => absurd c hc⟩,
      ⟨fun _ => hc, fun _ => rfl⟩⟩

def csrRsaNoHash : CsrRecord :=
  { keyAlg := .rsa, hashAlg := none, sigValid := true,
    subject := [⟨0, "Leaf"⟩], extensions := [] }

/-- C3 counterexample: a CSR whose key is RSA and whose declared hash algorithm
is absent is rejected with the unsupported-public-key error, not with the
missing-hash error: the first branch requires a present hash, the second an
elliptic-curve key, so control reaches the final else. -/
theorem c3_counterexample :
    verify_csr csrRsaNoHash = .error .unsupportedKeyAlgorithm ∧
    verify_csr csrRsaNoHash ≠ .error .missingHashAlgorithm := by
  have h : verify_csr csrRsaNoHash = .error .unsupportedKeyAlgorithm := by
    simp [verify_csr, csrRsaNoHash]
  refine ⟨h, ?_⟩
  rw [h]
  simp

/-- C3 (amended): for every CSR whose embedded public key is RSA and whose
declared signature hash algorithm is absent, verification fails with
UnsupportedKeyAlgorithm (the unsupported-public-key branch), not with
MissingHashAlgorithm. -/
theorem c3_amended (csr : CsrRecord) (h1 : csr.keyAlg = .rsa)
    (h2 : csr.hashAlg = none) :
    verify_csr csr = .error .unsupportedKeyAlgorithm := by
  unfold verify_csr
  rw [h1, h2]
  simp

theorem c3_amended_witness :
    verify_csr csrRsaNoHash = .error .unsupportedKeyAlgorithm :=
  c3_amended csrRsaNoHash rfl rfl

/-- C8: the constraint string dispatch — a string without a colon (the empty
string included) fails with InvalidConstraint; a string p:v with a colon-free
p yields the DNS name v verbatim when p lowercases to dns, the parsed IP
network when p lowercases to ip (InvalidConstraint when the ipaddress parser
rejects v), the RFC822 name v verbatim for email, the parsed directory name
for dn (InvalidConstraint when the RFC 4514 parser rejects v), and
InvalidConstraint for every other p. -/
theorem c8_validate_constraint (ipParse : String → Option IPNet)
    (dnParse : String → Option DN) :
    (∀ s : String, ':' ∉ s.toList →
      validate_constraint ipParse dnParse s = .error .invalidConstraint) ∧
    (∀ p v : String, ':' ∉ p.toList →
      validate_constraint ipParse dnParse (p ++ ":" ++ v) =
        if pyLower p = "dns" then .ok (.dnsName v)
        else if pyLower p = "ip" then
          match ipParse v with
          | some net => .ok (.ipAddress net)
          | none => .error .invalidConstraint
        else if pyLower p = "email" then .ok (.rfc822Name v)
        else if pyLower p = "dn" then
          match dnParse v with
          | some d => .ok (.directoryName d)
          | none => .error .invalidConstraint
        else .error .invalidConstraint) := by
  constructor
  · intro s hs
    have hc : s.toList.contains ':' = false := by
      rw [Bool.eq_false_iff]
      intro h
      exact hs (List.elem_iff.mp h)
    unfold validate_constraint
    rw [hc]
    simp
  · intro p v hp
    have hsplit : (p ++ ":" ++ v).toList = p.toList ++ ':' :: v.toList := by
      show ((p ++ ":" ++ v).data) = p.data ++ ':' :: v.data
      rw [String.data_append, String.data_append]
      simp
    have hall : ∀ x ∈ p.toList, (x != ':') = true := by
      intro x hx
      rw [bne_iff_ne]
      intro he
      exact hp (he ▸ hx)
    have hcolon : ((':' : Char) != ':') = false := by simp
    have htake : (p ++ ":" ++ v).toList.takeWhile (fun c => c != ':') = p.toList := by
      rw [hsplit]
      exact takeWhile_middle _ _ _ _ hall hcolon
    have hdrop : (p ++ ":" ++ v).toList.dropWhile (fun c => c != ':') = ':' :: v.toList := by
      rw [hsplit]
      exact dropWhile_middle _ _ _ _ hall hcolon
    have hne : (p ++ ":" ++ v).toList.isEmpty = false := by
      rw [hsplit]
      simp
    have hcont : (p ++ ":" ++ v).toList.contains ':' = true :=
      List.elem_iff.mpr (by rw [hsplit]; simp)
    unfold validate_constraint
    rw [hne, hcont, htake, hdrop]
    simp only [List.drop_succ_cons, List.drop_zero, Bool.not_true, Bool.or_false,
      Bool.false_or, if_false]
    rfl

def ipNone : String → Option IPNet := fun _ => none

def dnNone : String → Option DN := fun _ => none

theorem c8_witness :
    validate_constraint ipNone dnNone "bogus" = .error .invalidConstraint :=
  (c8_validate_constraint ipNone dnNone).1 "bogus" (by decide)

/- ===== certificate.py: the certificate builders =====
   Each builder reads the clock twice (datetime.now(timezone.utc) appears once
   inside not_valid_before and once inside not_valid_after); t1 and t2 are the
   two instants returned, in seconds, and timedelta(days=days) adds
   days * 86400 seconds. -/

structure Cert where
  subject : DN
  issuer : DN
  serial : Nat
  notBefore : Nat
  notAfter : Nat
  extensions : List Extension
  deriving DecidableEq, Repr

def secondsPerDay : Nat := 86400

/- KeyUsage flags passed by certificate_root (lines 126-136) and
   certificate_intermediate (lines 234-244), in source order:
   digital_signature, content_commitment, key_encipherment, data_encipherment,
   key_agreement, key_cert_sign, crl_sign, encipher_only, decipher_only. -/
def caKeyUsage : ExtVal :=
  .keyUsage true false false false false true true false false

/- Python truthiness of an optional list (None and [] are falsy). -/
def truthy (o : Option (List GeneralName)) : Bool :=
  match o with
  | none => false
  | some l => !l.isEmpty

/- Python `permitted or None` inside the NameConstraints construction. -/
def pyOrNone (o : Option (List GeneralName)) : Option (List GeneralName) :=
  if truthy o then o else none

/- certificate_root, lines 107-146: subject = issuer = the given DN, serial 1,
   BasicConstraints and KeyUsage always, NameConstraints only when a permitted
   or an excluded list is truthy. -/
def certificate_root_cert (subject : DN) (permitted excluded : Option (List GeneralName))
    (days t1 t2 : Nat) : Cert :=
  { subject := subject, issuer := subject, serial := 1,
    notBefore := t1, notAfter := t2 + days * secondsPerDay,
    extensions :=
      [ { value := .basicConstraints true none, critical := true },
        { value := caKeyUsage, critical := true } ] ++
      (if truthy permitted || truthy excluded then
        [ { value := .nameConstraints (pyOrNone permitted) (pyOrNone excluded),
            critical := true } ]
      else []) }

/- certificate_intermediate, lines 210-247: issuer = the root certificate's
   subject, subject = the merge of the requested name against that issuer,
   random serial (an input here), same BasicConstraints and KeyUsage pair. -/
def certificate_intermediate_cert (issuer requested : DN) (serial days t1 t2 : Nat) : Cert :=
  { subject := mergeDN issuer requested, issuer := issuer, serial := serial,
    notBefore := t1, notAfter := t2 + days * secondsPerDay,
    extensions :=
      [ { value := .basicConstraints true none, critical := true },
        { value := caKeyUsage, critical := true } ] }

/- certificate_sign, lines 338-361: issuer = the intermediate certificate's
   subject; subject = the CSR's subject when no --subject-name was given, else
   the merge of the parsed name against the issuer; extensions copied verbatim
   from the CSR. -/
def certificate_sign_cert (issuer : DN) (subjectName : Option DN) (csr : CsrRecord)
    (serial days t1 t2 : Nat) : Cert :=
  { subject :=
      match subjectName with
      | none => csr.subject
      | some req => mergeDN issuer req,
    issuer := issuer, serial := serial,
    notBefore := t1, notAfter := t2 + days * secondsPerDay,
    extensions := csr.extensions }

/- root_sign, lines 444-461: issuer = the root certificate's subject, subject
   copied from the CSR unmodified, extensions copied verbatim. -/
def root_sign_cert (issuer : DN) (csr : CsrRecord) (serial days t1 t2 : Nat) : Cert :=
  { subject := csr.subject, issuer := issuer, serial := serial,
    notBefore := t1, notAfter := t2 + days * secondsPerDay,
    extensions := csr.extensions }

/- click.IntRange(min=1), the validation applied to every --days option before
   any builder runs. -/
def click_int_range_min1 (n : Int) : Except PkiError Int :=
  if n < 1 then .error .badParameter else .ok n

def dnRootCA : DN := [⟨0, "Root CA"⟩]

/-- C4 counterexample: requesting an intermediate whose subject name equals the
root's subject makes the merge return exactly the issuer's attributes, so the
built intermediate certificate's issuer DN string equals its subject DN
string, refuting the claim's "never" at this input. -/
theorem c4_counterexample :
    rfc4514String (certificate_intermediate_cert dnRootCA dnRootCA 5 1460 0 0).issuer =
      rfc4514String (certificate_intermediate_cert dnRootCA dnRootCA 5 1460 0 0).subject := by
  decide

/-- C4 (amended): every certificate built by the root builder has issuer DN
string equal to its subject DN string; a certificate built by the intermediate
builder has issuer DN string equal to its subject DN string exactly when the
merged subject DN serializes to the same RFC 4514 string as the issuer — which
happens, for instance, when the requested DN equals the issuer DN — and
otherwise the two strings differ. -/
theorem c4_amended :
    (∀ (subject : DN) (permitted excluded : Option (List GeneralName)) (days t1 t2 : Nat),
      rfc4514String (certificate_root_cert subject permitted excluded days t1 t2).issuer =
        rfc4514String (certificate_root_cert subject permitted excluded days t1 t2).subject) ∧
    (∀ (issuer requested : DN) (serial days t1 t2 : Nat),
      (rfc4514String (certificate_intermediate_cert issuer requested serial days t1 t2).issuer =
        rfc4514String (certificate_intermediate_cert issuer requested serial days t1 t2).subject)
      ↔ rfc4514String issuer = rfc4514String (mergeDN issuer requested)) := by
  exact ⟨fun _ _ _ _ _ _ => rfl, fun _ _ _ _ _ _ => Iff.rfl⟩

def rootDemoCert : Cert :=
  certificate_root_cert dnRootCA (some [GeneralName.dnsName "example.com"]) none 7300 0 0

/- The digitalSignature bit of the first KeyUsage extension of a certificate. -/
def kuDigitalSignature (c : Cert) : Option Bool :=
  c.extensions.findSome? (fun e =>
    match e.value with
    | .keyUsage ds _ _ _ _ _ _ _ _ => some ds
    | _ => none)

/-- C6 counterexample: the KeyUsage extension attached by the root builder has
its digitalSignature bit set (source line 127), so on the claim's own input —
subject CN=Root CA, 7300 days, one permitted constraint dns:example.com — no
extension carries the claimed KeyUsage in which every bit besides keyCertSign
and cRLSign is false. -/
theorem c6_counterexample :
    kuDigitalSignature rootDemoCert = some true ∧
    rootDemoCert.extensions.all
      (fun e => !(e.value == ExtVal.keyUsage false false false false false
        true true false false)) = true := by
  decide

/-- C6 (amended): the root certificate built with subject CN=Root CA, validity
7300 days and the single permitted constraint dns:example.com carries exactly a
critical BasicConstraints with CA=true and no path length, a critical KeyUsage
with digitalSignature, keyCertSign and cRLSign set and every other usage bit
false, and a critical NameConstraints with the one permitted DNS subtree
example.com and no excluded subtrees. -/
theorem c6_amended :
    rfc4514String rootDemoCert.subject = "CN=Root CA" ∧
    rootDemoCert.extensions =
      [ { value := .basicConstraints true none, critical := true },
        { value := .keyUsage true false false false false true true false false,
          critical := true },
        { value := .nameConstraints (some [GeneralName.dnsName "example.com"]) none,
          critical := true } ] := by
  exact ⟨rfl, rfl⟩

/- Exact validity (the claim's not-after = not-before + day count) and the
   weaker positivity invariant, for the builders' outputs. -/
def validityExact (c : Cert) (days : Nat) : Prop :=
  c.notAfter = c.notBefore + days * secondsPerDay

def validityPositive (c : Cert) : Prop :=
  c.notBefore < c.notAfter

/-- C9 counterexample: each builder reads the clock once inside
not_valid_before and again inside not_valid_after; when the second read falls
one second after the first (t1 = 0, t2 = 1) with a one-day validity, not-after
is not not-before + 1 day, refuting the claim's "exactly". -/
theorem c9_counterexample :
    ¬ validityExact (certificate_root_cert dnRootCA none none 1 0 1) 1 := by
  unfold validityExact
  decide

/-- C9 (amended): the day count is checked to be at least 1 before any builder
runs (click.IntRange(min=1)); each builder sets not-after to the instant of its
second clock read plus the day count, so not-after = not-before + day count
exactly iff the two clock reads returned the same instant, and with a monotone
clock (second read not before the first) not-after always exceeds not-before;
this holds for all four builders. -/
theorem c9_amended (subject issuer requested : DN)
    (permitted excluded : Option (List GeneralName)) (subjectName : Option DN)
    (csr : CsrRecord) (serial days t1 t2 : Nat)
    (hdays : 1 ≤ days) (hclock : t1 ≤ t2) :
    (∀ n : Int, click_int_range_min1 n = .ok n ↔ 1 ≤ n) ∧
    (validityExact (certificate_root_cert subject permitted excluded days t1 t2) days ↔ t1 = t2) ∧
    validityPositive (certificate_root_cert subject permitted excluded days t1 t2) ∧
    (validityExact (certificate_intermediate_cert issuer requested serial days t1 t2) days ↔ t1 = t2) ∧
    validityPositive (certificate_intermediate_cert issuer requested serial days t1 t2) ∧
    (validityExact (certificate_sign_cert issuer subjectName csr serial days t1 t2) days ↔ t1 = t2) ∧
    validityPositive (certificate_sign_cert issuer subjectName csr serial days t1 t2) ∧
    (validityExact (root_sign_cert issuer csr serial days t1 t2) days ↔ t1 = t2) ∧
    validityPositive (root_sign_cert issuer csr serial days t1 t2) := by
  refine ⟨fun n => ?_, ?_, ?_, ?_, ?_, ?_, ?_, ?_, ?_⟩
  · unfold click_int_range_min1
    by_cases hn : n < 1
    · rw [if_pos hn]
      exact ⟨fun hx => Except.noConfusion hx, fun h1 => absurd h1 (by omega)⟩
    · rw [if_neg hn]
      exact ⟨fun _ => by omega, fun _ => rfl⟩
  all_goals
    simp only [validityExact, validityPositive, certificate_root_cert,
      certificate_intermediate_cert, certificate_sign_cert, root_sign_cert,
      secondsPerDay]
  all_goals omega

/- ===== the three device-backed signing commands as step traces =====
   Each command is run against a small world: the parsed CSR, how many
   matching devices the catalog reports, the certificate stored in the
   signature slot of the selected device, the option values, whether the
   operator confirms, whether PIN and management-key checks succeed, the
   random serial, and the two clock reads of the builder. The run returns
   the command's outcome together with the ordered list of steps it
   performed; Event.sign marks the call to the external
   sign_certificate_builder. -/

inductive Event where
  | verifyCsr
  | selectDevice
  | authenticate
  | generateKey
  | getCertificate
  | roleCheck
  | buildCertificate
  | confirmPrompt
  | verifyPin
  | sign
  | putCertificate
  | writeOut
  deriving DecidableEq, Repr

def isErr {ε α : Type} : Except ε α → Bool
  | .error _ => true
  | .ok _ => false

structure SignWorld where
  csr : CsrRecord
  deviceCount : Nat
  stored : StoredCert
  subjectName : Option DN
  confirmYes : Bool
  pinOk : Bool
  serial : Nat
  days : Nat
  t1 : Nat
  t2 : Nat
  deriving Repr

/- certificate_sign, lines 287-378: the CSR is loaded and its self-signature
   verified before any device is touched; then the one intermediate device is
   selected, its stored certificate read and role-checked (issuer must differ
   from subject), the certificate is built, the operator confirms, the PIN is
   verified, and only then is sign_certificate_builder invoked. -/
def certificate_sign_run (w : SignWorld) : Except PkiError Cert × List Event :=
  match verify_csr w.csr with
  | .error e => (.error e, [.verifyCsr])
  | .ok _ =>
    match yubikey_one w.deviceCount with
    | .error e => (.error e, [.verifyCsr, .selectDevice])
    | .ok _ =>
      match role_guard false w.stored with
      | .error e =>
        (.error e, [.verifyCsr, .selectDevice, .getCertificate, .roleCheck])
      | .ok _ =>
        if w.confirmYes = false then
          (.error .abortedByUser,
            [.verifyCsr, .selectDevice, .getCertificate, .roleCheck,
             .buildCertificate, .confirmPrompt])
        else if w.pinOk = false then
          (.error .authError,
            [.verifyCsr, .selectDevice, .getCertificate, .roleCheck,
             .buildCertificate, .confirmPrompt, .verifyPin])
        else
          (.ok (certificate_sign_cert w.stored.subject w.subjectName w.csr
              w.serial w.days w.t1 w.t2),
            [.verifyCsr, .selectDevice, .getCertificate, .roleCheck,
             .buildCertificate, .confirmPrompt, .verifyPin, .sign, .writeOut])

structure RootSignWorld where
  csr : CsrRecord
  deviceCount : Nat
  stored : StoredCert
  confirmYes : Bool
  pinOk : Bool
  serial : Nat
  days : Nat
  t1 : Nat
  t2 : Nat
  deriving Repr

/- root_sign, lines 402-480: as certificate_sign but against the root device
   (the stored certificate must be self-signed) and with the CSR's subject
   copied unmodified. -/
def root_sign_run (w : RootSignWorld) : Except PkiError Cert × List Event :=
  match verify_csr w.csr with
  | .error e => (.error e, [.verifyCsr])
  | .ok _ =>
    match yubikey_one w.deviceCount with
    | .error e => (.error e, [.verifyCsr, .selectDevice])
    | .ok _ =>
      match role_guard true w.stored with
      | .error e =>
        (.error e, [.verifyCsr, .selectDevice, .getCertificate, .roleCheck])
      | .ok _ =>
        if w.confirmYes = false then
          (.error .abortedByUser,
            [.verifyCsr, .selectDevice, .getCertificate, .roleCheck,
             .buildCertificate, .confirmPrompt])
        else if w.pinOk = false then
          (.error .authError,
            [.verifyCsr, .selectDevice, .getCertificate, .roleCheck,
             .buildCertificate, .confirmPrompt, .verifyPin])
        else
          (.ok (root_sign_cert w.stored.subject w.csr w.serial w.days w.t1 w.t2),
            [.verifyCsr, .selectDevice, .getCertificate, .roleCheck,
             .buildCertificate, .confirmPrompt, .verifyPin, .sign, .writeOut])

structure IntermediateWorld where
  intermediateCount : Nat
  rootCount : Nat
  mgmtOk : Bool
  stored : StoredCert
  requested : DN
  pinOk : Bool
  serial : Nat
  days : Nat
  t1 : Nat
  t2 : Nat
  deriving Repr

/- certificate_intermediate, lines 182-262: three device sessions in sequence —
   the intermediate device is selected and authenticated with the management
   key to generate a key; the root device is selected, its stored certificate
   read and role-checked (issuer must equal subject), the certificate built,
   the PIN verified and sign_certificate_builder invoked; the intermediate
   device is selected and authenticated again to store the result. -/
def certificate_intermediate_run (w : IntermediateWorld) : Except PkiError Cert × List Event :=
  match yubikey_one w.intermediateCount with
  | .error e => (.error e, [.selectDevice])
  | .ok _ =>
    if w.mgmtOk = false then (.error .authError, [.selectDevice, .authenticate])
    else
      match yubikey_one w.rootCount with
      | .error e =>
        (.error e, [.selectDevice, .authenticate, .generateKey, .selectDevice])
      | .ok _ =>
        match role_guard true w.stored with
        | .error e =>
          (.error e, [.selectDevice, .authenticate, .generateKey, .selectDevice,
            .getCertificate, .roleCheck])
        | .ok _ =>
          if w.pinOk = false then
            (.error .authError,
              [.selectDevice, .authenticate, .generateKey, .selectDevice,
               .getCertificate, .roleCheck, .buildCertificate, .verifyPin])
          else
            (.ok (certificate_intermediate_cert w.stored.subject w.requested
                w.serial w.days w.t1 w.t2),
              [.selectDevice, .authenticate, .generateKey, .selectDevice,
               .getCertificate, .roleCheck, .buildCertificate, .verifyPin, .sign,
               .selectDevice, .authenticate, .putCertificate])

/- Index of the first occurrence of an event in a trace. -/
def idxOf (e : Event) : List Event → Nat
  | [] => 0
  | x :: xs => if x = e then 0 else idxOf e xs + 1

/- The complete trace of a run of certificate_sign or root_sign that reaches
   the sign step, and of certificate_intermediate likewise. -/
def signFlowTrace : List Event :=
  [.verifyCsr, .selectDevice, .getCertificate, .roleCheck, .buildCertificate,
   .confirmPrompt, .verifyPin, .sign, .writeOut]

def intermediateFlowTrace : List Event :=
  [.selectDevice, .authenticate, .generateKey, .selectDevice, .getCertificate,
   .roleCheck, .buildCertificate, .verifyPin, .sign, .selectDevice, .authenticate,
   .putCertificate]

theorem role_guard_false_ok {c : StoredCert} {u : Unit}
    (h : role_guard false c = .ok u) :
    rfc4514String c.issuer ≠ rfc4514String c.subject := by
  intro he
  unfold role_guard at h
  simp [he] at h

theorem role_guard_true_ok {c : StoredCert} {u : Unit}
    (h : role_guard true c = .ok u) :
    rfc4514String c.issuer = rfc4514String c.subject := by
  by_cases he : rfc4514String c.issuer = rfc4514String c.subject
  · exact he
  · unfold role_guard at h
    simp [he] at h

theorem certificate_sign_trace_cases (w : SignWorld) :
    Event.sign ∉ (certificate_sign_run w).2 ∨
      (certificate_sign_run w).2 = signFlowTrace := by
  unfold certificate_sign_run
  cases verify_csr w.csr with
  | error e => exact Or.inl (by simp)
  | ok u =>
    cases yubikey_one w.deviceCount with
    | error e => exact Or.inl (by simp)
    | ok u2 =>
      cases role_guard false w.stored with
      | error e => exact Or.inl (by simp)
      | ok u3 =>
        by_cases hc : w.confirmYes = false
        · rw [if_pos hc]
          exact Or.inl (by simp)
        · rw [if_neg hc]
          by_cases hp : w.pinOk = false
          · rw [if_pos hp]
            exact Or.inl (by simp)
          · rw [if_neg hp]
            exact Or.inr rfl

theorem root_sign_trace_cases (w : RootSignWorld) :
    Event.sign ∉ (root_sign_run w).2 ∨
      (root_sign_run w).2 = signFlowTrace := by
  unfold root_sign_run
  cases verify_csr w.csr with
  | error e => exact Or.inl (by simp)
  | ok u =>
    cases yubikey_one w.deviceCount with
    | error e => exact Or.inl (by simp)
    | ok u2 =>
      cases role_guard true w.stored with
      | error e => exact Or.inl (by simp)
      | ok u3 =>
        by_cases hc : w.confirmYes = false
        · rw [if_pos hc]
          exact Or.inl (by simp)
        · rw [if_neg hc]
          by_cases hp : w.pinOk = false
          · rw [if_pos hp]
            exact Or.inl (by simp)
          · rw [if_neg hp]
            exact Or.inr rfl

theorem certificate_intermediate_trace_cases (w : IntermediateWorld) :
    Event.sign ∉ (certificate_intermediate_run w).2 ∨
      (certificate_intermediate_run w).2 = intermediateFlowTrace := by
  unfold certificate_intermediate_run
  cases yubikey_one w.intermediateCount with
  | error e => exact Or.inl (by simp)
  | ok u =>
    by_cases hm : w.mgmtOk = false
    · rw [if_pos hm]
      exact Or.inl (by simp)
    · rw [if_neg hm]
      cases yubikey_one w.rootCount with
      | error e => exact Or.inl (by simp)
      | ok u2 =>
        cases role_guard true w.stored with
        | error e => exact Or.inl (by simp)
        | ok u3 =>
          by_cases hp : w.pinOk = false
          · rw [if_pos hp]
            exact Or.inl (by simp)
          · rw [if_neg hp]
            exact Or.inr rfl

/-- C1: in each of the three device-backed signing flows, when the role check
on the certificate read from the selected device fails — issuer-DN string equal
to subject-DN string where an intermediate device is expected, the two strings
different where a root device is expected — the external sign operation
(sign_certificate_builder) is never invoked and the command ends in an error. -/
theorem c1_roleguard_blocks_sign (w1 : SignWorld) (w2 : RootSignWorld)
    (w3 : IntermediateWorld)
    (h1 : rfc4514String w1.stored.issuer = rfc4514String w1.stored.subject)
    (h2 : rfc4514String w2.stored.issuer ≠ rfc4514String w2.stored.subject)
    (h3 : rfc4514String w3.stored.issuer ≠ rfc4514String w3.stored.subject) :
    (Event.sign ∉ (certificate_sign_run w1).2 ∧
      isErr (certificate_sign_run w1).1 = true) ∧
    (Event.sign ∉ (root_sign_run w2).2 ∧
      isErr (root_sign_run w2).1 = true) ∧
    (Event.sign ∉ (certificate_intermediate_run w3).2 ∧
      isErr (certificate_intermediate_run w3).1 = true) := by
  refine ⟨?_, ?_, ?_⟩
  · unfold certificate_sign_run
    cases verify_csr w1.csr with
    | error e => exact ⟨by simp, rfl⟩
    | ok u =>
      cases yubikey_one w1.deviceCount with
      | error e => exact ⟨by simp, rfl⟩
      | ok u2 =>
        cases hr : role_guard false w1.stored with
        | error e => exact ⟨by simp, rfl⟩
        | ok u3 => exact absurd h1 (role_guard_false_ok hr)
  · unfold root_sign_run
    cases verify_csr w2.csr with
    | error e => exact ⟨by simp, rfl⟩
    | ok u =>
      cases yubikey_one w2.deviceCount with
      | error e => exact ⟨by simp, rfl⟩
      | ok u2 =>
        cases hr : role_guard true w2.stored with
        | error e => exact ⟨by simp, rfl⟩
        | ok u3 => exact absurd (role_guard_true_ok hr) h2
  · unfold certificate_intermediate_run
    cases yubikey_one w3.intermediateCount with
    | error e => exact ⟨by simp, rfl⟩
    | ok u =>
      by_cases hm : w3.mgmtOk = false
      · rw [if_pos hm]
        exact ⟨by simp, rfl⟩
      · rw [if_neg hm]
        cases yubikey_one w3.rootCount with
        | error e => exact ⟨by simp, rfl⟩
        | ok u2 =>
          cases hr : role_guard true w3.stored with
          | error e => exact ⟨by simp, rfl⟩
          | ok u3 => exact absurd (role_guard_true_ok hr) h3

def storedSelf : StoredCert := { issuer := dnRootCA, subject := dnRootCA }

def storedChild : StoredCert :=
  { issuer := dnRootCA, subject := [⟨0, "Intermediate CA"⟩] }

def csrGoodEc : CsrRecord :=
  { keyAlg := .ec, hashAlg := some .sha384, sigValid := true,
    subject := [⟨0, "Leaf"⟩], extensions := [] }

def signBadWorld : SignWorld :=
  { csr := csrGoodEc, deviceCount := 1, stored := storedSelf, subjectName := none,
    confirmYes := true, pinOk := true, serial := 7, days := 365, t1 := 0, t2 := 0 }

def rootSignBadWorld : RootSignWorld :=
  { csr := csrGoodEc, deviceCount := 1, stored := storedChild, confirmYes := true,
    pinOk := true, serial := 7, days := 365, t1 := 0, t2 := 0 }

def intermediateBadWorld : IntermediateWorld :=
  { intermediateCount := 1, rootCount := 1, mgmtOk := true, stored := storedChild,
    requested := [⟨0, "Intermediate CA"⟩], pinOk := true, serial := 7, days := 1460,
    t1 := 0, t2 := 0 }

theorem c1_witness :
    (Event.sign ∉ (certificate_sign_run signBadWorld).2 ∧
      isErr (certificate_sign_run signBadWorld).1 = true) ∧
    (Event.sign ∉ (root_sign_run rootSignBadWorld).2 ∧
      isErr (root_sign_run rootSignBadWorld).1 = true) ∧
    (Event.sign ∉ (certificate_intermediate_run intermediateBadWorld).2 ∧
      isErr (certificate_intermediate_run intermediateBadWorld).1 = true) :=
  c1_roleguard_blocks_sign signBadWorld rootSignBadWorld intermediateBadWorld
    (by decide) (by decide) (by decide)

def signDemoWorld : SignWorld :=
  { csr := csrGoodEc, deviceCount := 1, stored := storedChild, subjectName := none,
    confirmYes := true, pinOk := true, serial := 7, days := 365, t1 := 0, t2 := 0 }

def rootSignDemoWorld : RootSignWorld :=
  { csr := csrGoodEc, deviceCount := 1, stored := storedSelf, confirmYes := true,
    pinOk := true, serial := 7, days := 365, t1 := 0, t2 := 0 }

def intermediateDemoWorld : IntermediateWorld :=
  { intermediateCount := 1, rootCount := 1, mgmtOk := true, stored := storedSelf,
    requested := [⟨0, "Intermediate CA"⟩], pinOk := true, serial := 7, days := 1460,
    t1 := 0, t2 := 0 }

/-- C7 counterexample: a completed certificate_sign run whose trace places CSR
verification before device selection and PIN authentication after certificate
construction, refuting the claimed order device selection → authentication →
role check → CSR verification → construction → sign. -/
theorem c7_counterexample :
    Event.sign ∈ (certificate_sign_run signDemoWorld).2 ∧
    ¬ (idxOf .selectDevice (certificate_sign_run signDemoWorld).2 <
          idxOf .verifyPin (certificate_sign_run signDemoWorld).2 ∧
       idxOf .verifyPin (certificate_sign_run signDemoWorld).2 <
          idxOf .roleCheck (certificate_sign_run signDemoWorld).2 ∧
       idxOf .roleCheck (certificate_sign_run signDemoWorld).2 <
          idxOf .verifyCsr (certificate_sign_run signDemoWorld).2 ∧
       idxOf .verifyCsr (certificate_sign_run signDemoWorld).2 <
          idxOf .buildCertificate (certificate_sign_run signDemoWorld).2 ∧
       idxOf .buildCertificate (certificate_sign_run signDemoWorld).2 <
          idxOf .sign (certificate_sign_run signDemoWorld).2) := by
  decide

/-- C7 (amended): every run of certificate_sign or root_sign that reaches the
sign step performs, in order, CSR verification, then device selection, then
the role check on the stored certificate, then certificate construction, then
confirmation and PIN authentication, and only then the sign operation; every
run of certificate_intermediate that reaches the sign step performs device
selection, then management-key authentication, then the role check on the root
device's stored certificate, then certificate construction, then PIN
verification, and only then the sign operation. -/
theorem c7_amended (w1 : SignWorld) (w2 : RootSignWorld) (w3 : IntermediateWorld)
    (h1 : Event.sign ∈ (certificate_sign_run w1).2)
    (h2 : Event.sign ∈ (root_sign_run w2).2)
    (h3 : Event.sign ∈ (certificate_intermediate_run w3).2) :
    ((certificate_sign_run w1).2 = signFlowTrace ∧
     (root_sign_run w2).2 = signFlowTrace ∧
     (certificate_intermediate_run w3).2 = intermediateFlowTrace) ∧
    (idxOf .verifyCsr signFlowTrace < idxOf .selectDevice signFlowTrace ∧
     idxOf .selectDevice signFlowTrace < idxOf .roleCheck signFlowTrace ∧
     idxOf .roleCheck signFlowTrace < idxOf .buildCertificate signFlowTrace ∧
     idxOf .buildCertificate signFlowTrace < idxOf .confirmPrompt signFlowTrace ∧
     idxOf .confirmPrompt signFlowTrace < idxOf .verifyPin signFlowTrace ∧
     idxOf .verifyPin signFlowTrace < idxOf .sign signFlowTrace) ∧
    (idxOf .selectDevice intermediateFlowTrace < idxOf .authenticate intermediateFlowTrace ∧
     idxOf .authenticate intermediateFlowTrace < idxOf .roleCheck intermediateFlowTrace ∧
     idxOf .roleCheck intermediateFlowTrace < idxOf .buildCertificate intermediateFlowTrace ∧
     idxOf .buildCertificate intermediateFlowTrace < idxOf .verifyPin intermediateFlowTrace ∧
     idxOf .verifyPin intermediateFlowTrace < idxOf .sign intermediateFlowTrace) := by
  refine ⟨⟨?_, ?_, ?_⟩, by decide, by decide⟩
  · rcases certificate_sign_trace_cases w1 with hno | heq
    · exact absurd h1 hno
    · exact heq
  · rcases root_sign_trace_cases w2 with hno | heq
    · exact absurd h2 hno
    · exact heq
  · rcases certificate_intermediate_trace_cases w3 with hno | heq
    · exact absurd h3 hno
    · exact heq

theorem c7_witness :
    (((certificate_sign_run signDemoWorld).2 = signFlowTrace ∧
      (root_sign_run rootSignDemoWorld).2 = signFlowTrace ∧
      (certificate_intermediate_run intermediateDemoWorld).2 = intermediateFlowTrace) ∧
     (idxOf .verifyCsr signFlowTrace < idxOf .selectDevice signFlowTrace ∧
      idxOf .selectDevice signFlowTrace < idxOf .roleCheck signFlowTrace ∧
      idxOf .roleCheck signFlowTrace < idxOf .buildCertificate signFlowTrace ∧
      idxOf .buildCertificate signFlowTrace < idxOf .confirmPrompt signFlowTrace ∧
      idxOf .confirmPrompt signFlowTrace < idxOf .verifyPin signFlowTrace ∧
      idxOf .verifyPin signFlowTrace < idxOf .sign signFlowTrace) ∧
     (idxOf .selectDevice intermediateFlowTrace < idxOf .authenticate intermediateFlowTrace ∧
      idxOf .authenticate intermediateFlowTrace < idxOf .roleCheck intermediateFlowTrace ∧
      idxOf .roleCheck intermediateFlowTrace < idxOf .buildCertificate intermediateFlowTrace ∧
      idxOf .buildCertificate intermediateFlowTrace < idxOf .verifyPin intermediateFlowTrace ∧
      idxOf .verifyPin intermediateFlowTrace < idxOf .sign intermediateFlowTrace)) :=
  c7_amended signDemoWorld rootSignDemoWorld intermediateDemoWorld
    (by decide) (by decide) (by decide)

theorem c9_witness :
    (∀ n : Int, click_int_range_min1 n = .ok n ↔ 1 ≤ n) ∧
    (validityExact (certificate_root_cert dnRootCA none none 1 0 0) 1 ↔ (0 : Nat) = 0) ∧
    validityPositive (certificate_root_cert dnRootCA none none 1 0 0) ∧
    (validityExact (certificate_intermediate_cert dnRootCA dnRootCA 5 1 0 0) 1 ↔ (0 : Nat) = 0) ∧
    validityPositive (certificate_intermediate_cert dnRootCA dnRootCA 5 1 0 0) ∧
    (validityExact (certificate_sign_cert dnRootCA none csrRsaNoHash 5 1 0 0) 1 ↔ (0 : Nat) = 0) ∧
    validityPositive (certificate_sign_cert dnRootCA none csrRsaNoHash 5 1 0 0) ∧
    (validityExact (root_sign_cert dnRootCA csrRsaNoHash 5 1 0 0) 1 ↔ (0 : Nat) = 0) ∧
    validityPositive (root_sign_cert dnRootCA csrRsaNoHash 5 1 0 0) :=
  c9_amended dnRootCA dnRootCA dnRootCA none none none csrRsaNoHash 5 1 0 0
    (by decide) (by decide)

end OfflinePki
